import Mathlib

/-!
Verification development for the Voltic question-answering bot.

The definitions below are a shallow embedding of the core of the repository:
* `bot/question_matcher.py` (`QuestionMatcher`): query normalisation, fuzzy
  matching via `fuzzywuzzy`'s `token_sort_ratio`, filtering/ranking/limiting;
* `bot/sheets_manager.py` (`CSVManager`): knowledge-base loading, schema
  validation, row cleaning, the time- and mtime-based cache, the
  unanswered-question log, and the remote decode fallback chain.

Python strings are modelled as Lean `String`; the character classes of the
regexes (`\w`, `\s`) and `str.lower` are modelled at the ASCII level
(`Char.isAlphanum`, `Char.isWhitespace`, `Char.toLower`), which is the level at
which every claim is stated.  Machine-level details that no claim depends on
(the `asciidammit` ASCII-forcing pass of `fuzzywuzzy.utils.full_process`,
pandas `datetime` parsing) are noted where they are abstracted.
-/

namespace Voltic

/-! ### Python string primitives -/

/-- Python `\s` / `str.strip` whitespace class. -/
def isWs (c : Char) : Bool := c.isWhitespace

/-- Python regex `\w` word-character class (alphanumerics and underscore). -/
def isWordChar (c : Char) : Bool := c.isAlphanum || c = '_'

/-- Python `str.strip` on a character list: drop leading and trailing
whitespace. -/
def stripL (cs : List Char) : List Char :=
  ((cs.dropWhile isWs).reverse.dropWhile isWs).reverse

/-- Python `str.strip`. -/
def strip (s : String) : String := String.mk (stripL s.toList)

/-- Python `str.lower` (ASCII model). -/
def toLowerStr (s : String) : String := String.mk (s.toList.map Char.toLower)

/-- Auxiliary for `re.sub(r'\s+', ' ', s)`: the flag records whether the
previous character was whitespace (so a run is collapsed to one space). -/
def collapseWsAux : Bool → List Char → List Char
  | _, [] => []
  | prevWs, c :: cs =>
    if isWs c then
      if prevWs then collapseWsAux true cs else ' ' :: collapseWsAux true cs
    else c :: collapseWsAux false cs

/-- Python `re.sub(r'\s+', ' ', s)`: collapse every whitespace run to a single
space. -/
def collapseWs (s : String) : String := String.mk (collapseWsAux false s.toList)

/-- Auxiliary for Python `str.split()`: accumulates the current word
(reversed) and splits on whitespace runs, producing no empty words. -/
def wordsAux : List Char → List Char → List (List Char)
  | [], acc => if acc.isEmpty then [] else [acc.reverse]
  | c :: cs, acc =>
    if isWs c then
      if acc.isEmpty then wordsAux cs [] else acc.reverse :: wordsAux cs []
    else wordsAux cs (c :: acc)

/-- Python `str.split()` (no argument): split on whitespace runs, dropping
empty tokens. -/
def splitWs (s : String) : List String := (wordsAux s.toList []).map String.mk

/-- `fuzzywuzzy` `StringProcessor.replace_non_letters_non_numbers_with_whitespace`:
regex `\W` → `' '` (underscore is a word character and is kept). -/
def replaceNonWord (s : String) : String :=
  String.mk (s.toList.map fun c => if isWordChar c then c else ' ')

/-- `re.sub(r'[^\w\s]', ' ', s)` from `QuestionMatcher._clean_question`:
replace characters that are neither word characters nor whitespace by a
space. -/
def replaceNonWordNonWs (s : String) : String :=
  String.mk (s.toList.map fun c => if isWordChar c || isWs c then c else ' ')

/-! ### The `fuzzywuzzy` scorer

`fuzz.token_sort_ratio` with the `python-Levenshtein` backend:
`ratio(s1, s2)` short-circuits to 100 on equal strings
(`utils.check_for_equal`), otherwise returns
`int(round(100 * (lensum - ldist) / lensum))` where `ldist` is the edit
distance with insertions and deletions of cost 1 and substitutions of
cost 2, and `round` is Python's round-half-to-even. -/

/-- Edit distance with insertion/deletion cost 1 and substitution cost 2
(the distance underlying `python-Levenshtein`'s `ratio`). -/
def lev : List Char → List Char → Nat
  | [], ys => ys.length
  | _ :: xs, [] => xs.length + 1
  | x :: xs, y :: ys =>
    if x = y then lev xs ys
    else min (lev xs (y :: ys) + 1) (min (lev (x :: xs) ys + 1) (lev xs ys + 2))
termination_by xs ys => xs.length + ys.length
decreasing_by all_goals (simp; try omega)

/-- Python `int(round(num / den))` with round-half-to-even (banker's
rounding), on a non-negative rational `num / den`. -/
def intr (num den : Nat) : Nat :=
  let q := num / den
  let r := num % den
  if 2 * r < den then q
  else if den < 2 * r then q + 1
  else if q % 2 = 0 then q else q + 1

/-- `fuzz.ratio`: 100 on equal strings, otherwise the rounded
`python-Levenshtein` ratio scaled to 0–100. -/
def fuzz_ratio (s1 s2 : String) : Nat :=
  if s1 = s2 then 100
  else
    let lensum := s1.toList.length + s2.toList.length
    intr (100 * (lensum - lev s1.toList s2.toList)) lensum

/-- `fuzzywuzzy.utils.full_process`: replace non-word characters by spaces,
lowercase, strip.  (The `force_ascii`/`asciidammit` pass is abstracted: the
claims are stated at the ASCII level, and equal inputs remain equal under any
further per-string processing.) -/
def full_process (s : String) : String := strip (toLowerStr (replaceNonWord s))

/-- `fuzzywuzzy.fuzz._process_and_sort`: full-process, split into tokens,
sort the tokens, join with single spaces, strip. -/
def process_and_sort (s : String) : String :=
  strip (String.intercalate " " (List.insertionSort (· ≤ ·) (splitWs (full_process s))))

/-- `fuzz.token_sort_ratio`: `ratio` of the token-sorted processed forms. -/
def token_sort_ratio (s1 s2 : String) : Nat :=
  fuzz_ratio (process_and_sort s1) (process_and_sort s2)

/-! ### `QuestionMatcher._clean_question` and `get_similarity_score` -/

/-- `QuestionMatcher._clean_question`: lowercase and strip, collapse
whitespace, replace `[^\w\s]` by spaces, collapse whitespace again, strip. -/
def clean_question (question : String) : String :=
  if question = "" then ""
  else
    let c1 := strip (toLowerStr question)
    let c2 := collapseWs c1
    let c3 := replaceNonWordNonWs c2
    strip (collapseWs c3)

/-- `QuestionMatcher.get_similarity_score`: clean both questions, return 0 if
either cleans to empty, otherwise their `token_sort_ratio`.  (The enclosing
`try/except` can only fire on exceptions of the underlying library, which the
pure model does not produce.) -/
def get_similarity_score (q1 q2 : String) : Nat :=
  let c1 := clean_question q1
  let c2 := clean_question q2
  if c1 = "" || c2 = "" then 0
  else token_sort_ratio c1 c2

/-! ### Configuration (`bot/config.py`)

`Config` carries the fields the core consumes.  `similarity_threshold` is
read from the environment as a number in 0–100 and compared only by order
against the integer scores, so it is modelled as a `Nat`; `cache_duration`
is in minutes and all model times are in the same unit.
`google_sheets_csv_url` is the optional remote source read by
`CSVManager.__init__`. -/

structure Config where
  csv_file_path : String
  google_sheets_csv_url : Option String
  max_results : Nat
  similarity_threshold : Nat
  cache_duration : Int
deriving DecidableEq

/-! ### The knowledge-base table as the matcher sees it

A pandas `DataFrame` row, accessed by `find_matches` via `row['Question']`,
`row['Answer']`, and `row.get(col, default)` for the optional columns.
`none` models a missing column or a missing (`NaN`) cell. -/

structure KBRow where
  question : String
  answer : String
  category : Option String
  priority : Option Int
  lastUpdated : Option String
deriving DecidableEq

/-- A `DataFrame` handed to the matcher: `hasQuestion` records whether the
`Question` column exists (`knowledge_base['Question']` raises `KeyError`
when it does not). -/
structure KBFrame where
  hasQuestion : Bool
  rows : List KBRow
deriving DecidableEq

/-- One element of the list returned by `find_matches` (the Python result
dict). -/
structure MatchResult where
  question : String
  answer : String
  category : String
  priority : Int
  score : Nat
  lastUpdated : Option String
deriving DecidableEq

/-- The comparison realised by `results.sort(key=lambda x: (-x['score'],
x['priority']))`: score descending, then priority ascending. -/
def resLe (a b : MatchResult) : Prop :=
  b.score < a.score ∨ (a.score = b.score ∧ a.priority ≤ b.priority)

instance : DecidableRel resLe := fun a b =>
  inferInstanceAs (Decidable (b.score < a.score ∨ (a.score = b.score ∧ a.priority ≤ b.priority)))

instance : IsTotal MatchResult resLe where
  total a b := by
    rcases Nat.lt_trichotomy a.score b.score with h | h | h
    · exact Or.inr (Or.inl h)
    · rcases Int.le_total a.priority b.priority with hp | hp
      · exact Or.inl (Or.inr ⟨h, hp⟩)
      · exact Or.inr (Or.inr ⟨h.symm, hp⟩)
    · exact Or.inl (Or.inl h)

instance : IsTrans MatchResult resLe where
  trans a b c hab hbc := by
    rcases hab with hab | ⟨hab, hab'⟩ <;> rcases hbc with hbc | ⟨hbc, hbc'⟩
    · exact Or.inl (hbc.trans hab)
    · exact Or.inl (hbc ▸ hab)
    · exact Or.inl (hab ▸ hbc)
    · exact Or.inr ⟨hab.trans hbc, hab'.trans hbc'⟩

/-- The descending stable ordering used by `heapq.nlargest` inside
`fuzzywuzzy.process.extract` (equivalent to a stable sort by score
descending followed by truncation). -/
def scoreGe (a b : String × Nat) : Prop := b.2 ≤ a.2

instance : DecidableRel scoreGe := fun a b => inferInstanceAs (Decidable (b.2 ≤ a.2))

instance : IsTotal (String × Nat) scoreGe where
  total a b := Nat.le_total b.2 a.2

instance : IsTrans (String × Nat) scoreGe where
  trans _ _ _ hab hbc := Nat.le_trans hbc hab

/-- `fuzzywuzzy.process.extract(query, choices, scorer=fuzz.token_sort_ratio,
limit=limit)`: score every choice with `token_sort_ratio` (the query was
processed once up front; the scorer processes both arguments), then return
the `limit` best `(choice, score)` pairs, scores descending, earlier choices
first among ties. -/
def extract (query : String) (choices : List String) (limit : Nat) : List (String × Nat) :=
  (List.insertionSort scoreGe (choices.map fun c => (c, token_sort_ratio query c))).take limit

/-- The result dict built for one surviving candidate from the first
`DataFrame` row carrying the matched question text:
`row.get('Category', 'General')` and `row.get('Priority', 5)` default the
optional columns. -/
def mkResult (row : KBRow) (score : Nat) : MatchResult :=
  { question := row.question
    answer := row.answer
    category := row.category.getD "General"
    priority := row.priority.getD 5
    score := score
    lastUpdated := row.lastUpdated }

/-- The filtering loop of `find_matches`: keep candidates with
`score >= similarity_threshold` and resolve each back to the first row of
the table with that exact question text
(`knowledge_base[knowledge_base['Question'] == match_text].iloc[0]`; the
unreachable empty-selection case raises `IndexError`). -/
def buildResults (cfg : Config) (kb : KBFrame) : List (String × Nat) → Except String (List MatchResult)
  | [] => .ok []
  | (text, score) :: rest =>
    if cfg.similarity_threshold ≤ score then
      match kb.rows.find? (fun r => r.question == text) with
      | none => .error "IndexError: single positional indexer is out-of-bounds"
      | some row =>
        match buildResults cfg kb rest with
        | .error e => .error e
        | .ok rs => .ok (mkResult row score :: rs)
    else buildResults cfg kb rest

/-- The body of `QuestionMatcher.find_matches` (the `try` block): empty
table → `[]`; query empty after cleaning → `[]`; otherwise score candidates
(`limit = max_results * 2`), filter by threshold, resolve rows, sort by
(-score, priority) and truncate to `max_results`.  `Except.error` models an
exception escaping the block. -/
def find_matches_body (cfg : Config) (user_question : String) (kb : KBFrame) :
    Except String (List MatchResult) :=
  if kb.rows.isEmpty then .ok []
  else if clean_question user_question = "" then .ok []
  else if !kb.hasQuestion then .error "KeyError: Question"
  else
    match buildResults cfg kb
        (extract (clean_question user_question) (kb.rows.map (·.question))
          (cfg.max_results * 2)) with
    | .error e => .error e
    | .ok results => .ok ((List.insertionSort resLe results).take cfg.max_results)

/-- `QuestionMatcher.find_matches`: the `except` clause converts any
exception from the body into an empty list. -/
def find_matches (cfg : Config) (user_question : String) (kb : KBFrame) : List MatchResult :=
  match find_matches_body cfg user_question kb with
  | .ok results => results
  | .error _ => []

/-- `QuestionMatcher.get_best_match`: first match if any. -/
def get_best_match (cfg : Config) (user_question : String) (kb : KBFrame) :
    Option MatchResult :=
  (find_matches cfg user_question kb).head?

/-! ### `CSVManager` (`bot/sheets_manager.py`) -/

/-- A raw `DataFrame` cell row as produced by `pd.read_csv`: `none` models a
missing (`NaN`) cell or a cell of a column the file does not have. -/
structure RawRow where
  category : Option String
  question : Option String
  answer : Option String
  priority : Option String
  lastUpdated : Option String
deriving DecidableEq

/-- A raw `DataFrame`: column-presence flags plus the rows. -/
structure RawTable where
  hasCategory : Bool
  hasQuestion : Bool
  hasAnswer : Bool
  hasPriority : Bool
  hasLastUpdated : Bool
  rows : List RawRow
deriving DecidableEq

/-- `pd.to_numeric(x, errors='coerce')` on one cell, restricted to the
integer values the claims mention: an optionally negated digit string
parses, anything else coerces to `NaN` (`none`). -/
def toNumeric (s : String) : Option Int :=
  match s.toList with
  | [] => none
  | '-' :: ds =>
    if ds ≠ [] ∧ ds.all Char.isDigit then
      some (-(Int.ofNat (ds.foldl (fun n c => 10 * n + (c.toNat - '0'.toNat)) 0)))
    else none
  | ds =>
    if ds.all Char.isDigit then
      some (Int.ofNat (ds.foldl (fun n c => 10 * n + (c.toNat - '0'.toNat)) 0))
    else none

/-- The per-row normalisation inside `CSVManager._clean_data`: coerce
Priority to a number defaulting to 5 (also when the column is absent), keep
Last Updated best-effort (its `pd.to_datetime` parse is claim-irrelevant and
modelled as the raw cell), and strip the text columns
(`astype(str).str.strip()`). -/
def clean_row (df : RawTable) (r : RawRow) : KBRow :=
  { question := strip (r.question.getD "")
    answer := strip (r.answer.getD "")
    category := if df.hasCategory then r.category.map strip else none
    priority := some (if df.hasPriority then (r.priority.bind toNumeric).getD 5 else 5)
    lastUpdated := r.lastUpdated }

/-- `CSVManager._clean_data`: drop rows with missing Question/Answer
(`dropna`), drop rows whose trimmed Question or Answer is empty, then
normalise each surviving row with `clean_row`. -/
def clean_data (df : RawTable) : List KBRow :=
  (((df.rows.filter fun r => r.question.isSome && r.answer.isSome).filter
      fun r => strip (r.question.getD "") != "").filter
      fun r => strip (r.answer.getD "") != "").map (clean_row df)

/-- `required_columns = ['Category', 'Question', 'Answer']` check. -/
def missing_required (df : RawTable) : Bool :=
  !df.hasCategory || !df.hasQuestion || !df.hasAnswer

/-- `CSVManager`'s mutable cache fields (`data_cache`, `cache_time`,
`last_modified`), all `None` at construction. -/
structure CacheState where
  data_cache : Option (List KBRow)
  cache_time : Option Int
  last_modified : Option Int
deriving DecidableEq

/-- The external world one `get_knowledge_base` call observes: the outcome
of a remote fetch-parse-clean (`_load_from_google_sheets`), whether the
local file exists, its mtime, the outcome of `pd.read_csv` on it, and the
current time.  Times are integers in minutes (the unit of
`cache_duration`). -/
structure GetEnv where
  remote : Except String (List KBRow)
  filePresent : Bool
  fileMtime : Int
  readResult : Except String RawTable
  now : Int

/-- `CSVManager._is_cache_valid`: a cached table and a populated cache time
must exist, the source file must exist, the file's mtime must not be newer
than the recorded `last_modified` (when one is recorded), and the elapsed
time must be under `cache_duration`. -/
def is_cache_valid (cfg : Config) (st : CacheState) (env : GetEnv) : Bool :=
  match st.data_cache, st.cache_time with
  | some _, some ct =>
    if !env.filePresent then false
    else if (match st.last_modified with
             | some lm => decide (lm < env.fileMtime)
             | none => false) then false
    else decide (env.now < ct + cfg.cache_duration)
  | _, _ => false

/-- `CSVManager._is_cache_valid_for_google_sheets`: only the expiry check. -/
def is_cache_valid_for_google_sheets (cfg : Config) (st : CacheState) (now : Int) : Bool :=
  match st.data_cache, st.cache_time with
  | some _, some ct => decide (now < ct + cfg.cache_duration)
  | _, _ => false

/-- The local-file section of `CSVManager.get_knowledge_base` (from the
`_is_cache_valid` check on).  Result: the returned frame, the new cache
state, and whether `pd.read_csv` ran on the local file.  `Except.error`
models the exception that the outer `except` clause logs and re-raises. -/
def get_local (cfg : Config) (st : CacheState) (env : GetEnv) :
    Except String (KBFrame × CacheState × Bool) :=
  if is_cache_valid cfg st env then .ok (⟨true, st.data_cache.getD []⟩, st, false)
  else if !env.filePresent then .ok (⟨false, []⟩, st, false)
  else
    match env.readResult with
    | .error e => .error e
    | .ok df =>
      if df.rows.isEmpty then .ok (⟨false, []⟩, st, true)
      else if missing_required df then .error "Missing required columns"
      else
        let cleaned := clean_data df
        .ok (⟨true, cleaned⟩,
          { data_cache := some cleaned, cache_time := some env.now,
            last_modified := some env.fileMtime },
          true)

/-- `CSVManager.get_knowledge_base`: try the remote source first when a URL
is configured (time-only cache validity; a remote success replaces
`data_cache`/`cache_time` but not `last_modified`; a remote failure is
logged and falls through), otherwise the local-file path. -/
def get_knowledge_base (cfg : Config) (st : CacheState) (env : GetEnv) :
    Except String (KBFrame × CacheState × Bool) :=
  match cfg.google_sheets_csv_url with
  | some _ =>
    if is_cache_valid_for_google_sheets cfg st env.now then
      .ok (⟨true, st.data_cache.getD []⟩, st, false)
    else
      match env.remote with
      | .ok rows =>
        .ok (⟨true, rows⟩,
          { st with data_cache := some rows, cache_time := some env.now }, false)
      | .error _ => get_local cfg st env
  | none => get_local cfg st env

/-! ### `CSVManager.log_unanswered_question` -/

/-- The CSV record written for one unanswered question:
`f'"{timestamp}","{user_id}","{username or "Unknown"}","{user_question}"\n'`. -/
def log_record (timestamp user_id username_eff q : String) : String :=
  "\"" ++ timestamp ++ "\",\"" ++ user_id ++ "\",\"" ++ username_eff ++ "\",\"" ++ q ++ "\"\n"

/-- `username or "Unknown"`: Python falsiness of `None` and `""`. -/
def username_or_unknown : Option String → String
  | none => "Unknown"
  | some u => if u = "" then "Unknown" else u

/-- `CSVManager.log_unanswered_question` before its `except` clause: fewer
than 3 whitespace-separated words → no write; otherwise append one record,
where a failing file write is an `Except.error`.  The log file is modelled
as its list of appended records. -/
def log_unanswered_body (q timestamp user_id : String) (username : Option String)
    (log : List String) (writeFails : Bool) : Except String (List String) :=
  if (splitWs q).length < 3 then .ok log
  else if writeFails then .error "write failed"
  else .ok (log ++ [log_record timestamp user_id (username_or_unknown username) q])

/-- `CSVManager.log_unanswered_question`: the `except` clause catches any
write failure, leaving the log unchanged and raising nothing. -/
def log_unanswered_question (q timestamp user_id : String) (username : Option String)
    (log : List String) (writeFails : Bool) : List String :=
  match log_unanswered_body q timestamp user_id username log writeFails with
  | .ok l => l
  | .error _ => log

/-! ### Remote decode fallback chain (`CSVManager._load_from_google_sheets`)

The raw response bytes are decoded by trying `utf-8`, `utf-8-sig`, `cp1251`
and `latin1` in order; if all fail, `utf-8` with `errors='replace'` is used.
The first three codecs are partial and modelled as arbitrary functions; the
`latin1` codec maps every byte 0–255 to the Unicode code point of the same
value and never fails. -/

/-- Python `bytes.decode('latin1')`: total on byte values. -/
def decode_latin1 (bs : List Nat) : Option String :=
  if bs.all (· < 256) then some (String.mk (bs.map Char.ofNat)) else none

/-- The ordered fallback chain `['utf-8', 'utf-8-sig', 'cp1251', 'latin1']`:
first successful decode wins. -/
def decode_chain (dUtf8 dUtf8sig dCp1251 : List Nat → Option String)
    (bs : List Nat) : Option String :=
  match dUtf8 bs with
  | some t => some t
  | none =>
    match dUtf8sig bs with
    | some t => some t
    | none =>
      match dCp1251 bs with
      | some t => some t
      | none => decode_latin1 bs

/-- The decode step of `_load_from_google_sheets`: the chain, with
`content.decode('utf-8', errors='replace')` as the lossy last resort. -/
def remote_decode (dUtf8 dUtf8sig dCp1251 : List Nat → Option String)
    (lossyUtf8 : List Nat → String) (bs : List Nat) : String :=
  match decode_chain dUtf8 dUtf8sig dCp1251 bs with
  | some t => t
  | none => lossyUtf8 bs

/-! ### Matcher lemmas -/

/-- Every result assembled by the filtering loop scores at least the
threshold and is built, at its own score, from the first table row whose
question text equals the result's question text. -/
theorem buildResults_ok_mem {cfg : Config} {kb : KBFrame} {ms : List (String × Nat)}
    {rs : List MatchResult} (h : buildResults cfg kb ms = .ok rs) {m : MatchResult}
    (hm : m ∈ rs) :
    cfg.similarity_threshold ≤ m.score ∧
      ∃ row, kb.rows.find? (fun r => r.question == m.question) = some row ∧
        m = mkResult row m.score := by
  induction ms generalizing rs with
  | nil =>
    simp only [buildResults, Except.ok.injEq] at h
    subst h
    simp at hm
  | cons p rest ih =>
    obtain ⟨text, score⟩ := p
    simp only [buildResults] at h
    by_cases hth : cfg.similarity_threshold ≤ score
    · rw [if_pos hth] at h
      cases hfind : kb.rows.find? (fun r => r.question == text) with
      | none => rw [hfind] at h; cases h
      | some row =>
        rw [hfind] at h
        cases hrest : buildResults cfg kb rest with
        | error e => rw [hrest] at h; cases h
        | ok rs' =>
          rw [hrest] at h
          injection h with h
          subst h
          rcases List.mem_cons.mp hm with hm | hm
          · subst hm
            have hq : row.question = text := by
              simpa using List.find?_some hfind
            refine ⟨hth, row, ?_, rfl⟩
            show kb.rows.find? (fun r => r.question == row.question) = some row
            rw [hq]
            exact hfind
          · exact ih hrest hm
    · rw [if_neg hth] at h
      exact ih h hm

/-- Shape of a successful `find_matches` body: either one of the early-exit
empty lists, or the sorted-and-truncated output of the filtering loop. -/
theorem find_matches_body_ok {cfg : Config} {q : String} {kb : KBFrame}
    {rs : List MatchResult} (h : find_matches_body cfg q kb = .ok rs) :
    rs = [] ∨ ∃ results,
      buildResults cfg kb
          (extract (clean_question q) (kb.rows.map (·.question)) (cfg.max_results * 2)) =
        .ok results ∧
      rs = (List.insertionSort resLe results).take cfg.max_results := by
  unfold find_matches_body at h
  split at h
  · exact Or.inl (by injection h with h; exact h.symm)
  · split at h
    · exact Or.inl (by injection h with h; exact h.symm)
    · split at h
      · cases h
      · split at h
        · cases h
        · rename_i results hb
          injection h with h
          exact Or.inr ⟨results, hb, h.symm⟩

/-- Claim C1: for every configuration (hence every threshold and maximum
result count), query and knowledge-base table, `find_matches` returns at
most `max_results` matches and every returned match scores at least
`similarity_threshold`. -/
theorem claim_C1 (cfg : Config) (q : String) (kb : KBFrame) :
    (find_matches cfg q kb).length ≤ cfg.max_results ∧
      ∀ m ∈ find_matches cfg q kb, cfg.similarity_threshold ≤ m.score := by
  unfold find_matches
  cases h : find_matches_body cfg q kb with
  | error e => simp
  | ok rs =>
    rcases find_matches_body_ok h with hrs | ⟨results, hb, hrs⟩
    · subst hrs; simp
    · subst hrs
      constructor
      · simp
      · intro m hm
        have hm₁ : m ∈ List.insertionSort resLe results :=
          (List.take_sublist _ _).subset hm
        have hm₂ : m ∈ results := (List.perm_insertionSort resLe results).subset hm₁
        exact (buildResults_ok_mem hb hm₂).1

/-- Claim C2: the list returned by `find_matches` is sorted with scores
non-increasing, and among matches with equal score the priority values are
non-decreasing. -/
theorem claim_C2 (cfg : Config) (q : String) (kb : KBFrame) :
    (find_matches cfg q kb).Pairwise
      (fun a b => b.score ≤ a.score ∧ (a.score = b.score → a.priority ≤ b.priority)) := by
  unfold find_matches
  cases h : find_matches_body cfg q kb with
  | error e => simp
  | ok rs =>
    rcases find_matches_body_ok h with hrs | ⟨results, _, hrs⟩
    · subst hrs; simp
    · subst hrs
      have hs : (List.insertionSort resLe results).Pairwise resLe :=
        List.sorted_insertionSort resLe results
      have ht : ((List.insertionSort resLe results).take cfg.max_results).Pairwise resLe :=
        hs.sublist (List.take_sublist _ _)
      refine ht.imp ?_
      intro a b hab
      rcases hab with hab | ⟨hab, hab'⟩
      · exact ⟨Nat.le_of_lt hab, fun heq => absurd heq (by omega)⟩
      · exact ⟨Nat.le_of_eq hab.symm, fun _ => hab'⟩

/-- Claim C8: `find_matches` never raises past its boundary: on every input
it returns a (possibly empty) list, and whenever its body raises an internal
exception the returned list is exactly the empty list. -/
theorem claim_C8 (cfg : Config) (q : String) (kb : KBFrame) :
    find_matches_body cfg q kb = .ok (find_matches cfg q kb) ∨
      (find_matches cfg q kb = [] ∧ ∃ e, find_matches_body cfg q kb = .error e) := by
  cases h : find_matches_body cfg q kb with
  | ok rs => exact Or.inl (by simp [find_matches, h])
  | error e => exact Or.inr ⟨by simp [find_matches, h], e, rfl⟩

/-! ### Strip and edit-distance lemmas -/

theorem stripL_isPre (cs : List Char) : stripL cs <+: cs.dropWhile isWs := by
  have h1 : (cs.dropWhile isWs).reverse.dropWhile isWs <:+ (cs.dropWhile isWs).reverse :=
    List.dropWhile_suffix isWs
  have h2 := h1.reverse
  rwa [List.reverse_reverse] at h2

theorem stripL_head_not (cs : List Char) {c : Char} {rest : List Char}
    (h : stripL cs = c :: rest) : isWs c = false := by
  have hstrip := stripL_isPre cs
  rw [h] at hstrip
  obtain ⟨t, ht⟩ := hstrip
  have hcons : cs.dropWhile isWs = c :: (rest ++ t) := by
    rw [← ht]; simp
  have hw := List.head_dropWhile_not isWs cs (by rw [hcons]; simp)
  simp only [hcons, List.head_cons] at hw
  simpa using hw

theorem stripL_dropWhile (cs : List Char) : (stripL cs).dropWhile isWs = stripL cs := by
  cases h : stripL cs with
  | nil => rfl
  | cons c rest =>
    have hc : isWs c = false := stripL_head_not cs h
    simp [List.dropWhile_cons, hc]

theorem stripL_idem (cs : List Char) : stripL (stripL cs) = stripL cs := by
  have hrev : (stripL cs).reverse.dropWhile isWs = (stripL cs).reverse := by
    have h : (stripL cs).reverse = ((cs.dropWhile isWs).reverse).dropWhile isWs := by
      simp [stripL]
    rw [h, List.dropWhile_idempotent]
  conv_lhs => rw [stripL]
  rw [stripL_dropWhile, hrev, List.reverse_reverse]

theorem strip_idem (s : String) : strip (strip s) = strip s := by
  have h : (String.mk (stripL s.toList)).toList = stripL s.toList := rfl
  show String.mk (stripL (String.mk (stripL s.toList)).toList) = String.mk (stripL s.toList)
  rw [h, stripL_idem]

theorem lev_symm_aux : ∀ (n : Nat) (xs ys : List Char),
    xs.length + ys.length ≤ n → lev xs ys = lev ys xs := by
  intro n
  induction n with
  | zero =>
    intro xs ys h
    cases xs with
    | nil => cases ys with
      | nil => rfl
      | cons y ys => simp at h
    | cons x xs => simp at h
  | succ n ih =>
    intro xs ys h
    match xs, ys with
    | [], [] => rfl
    | [], y :: ys => simp [lev]
    | x :: xs, [] => simp [lev]
    | x :: xs, y :: ys =>
      simp only [lev]
      by_cases hxy : x = y
      · subst hxy
        rw [if_pos rfl, if_pos rfl]
        exact ih xs ys (by simp at h; omega)
      · have hyx : ¬y = x := fun hh => hxy hh.symm
        rw [if_neg hxy, if_neg hyx]
        have e1 := ih xs (y :: ys) (by simp at h ⊢; omega)
        have e2 := ih (x :: xs) ys (by simp at h ⊢; omega)
        have e3 := ih xs ys (by simp at h ⊢; omega)
        rw [e1, e2, e3]
        omega

theorem lev_symm (xs ys : List Char) : lev xs ys = lev ys xs :=
  lev_symm_aux (xs.length + ys.length) xs ys le_rfl

theorem fuzz_ratio_symm (s t : String) : fuzz_ratio s t = fuzz_ratio t s := by
  unfold fuzz_ratio
  by_cases h : s = t
  · have h' : t = s := h.symm
    rw [if_pos h, if_pos h']
  · have h' : ¬t = s := fun hh => h hh.symm
    rw [if_neg h, if_neg h']
    rw [lev_symm, Nat.add_comm s.toList.length t.toList.length]

theorem token_sort_ratio_symm (s t : String) :
    token_sort_ratio s t = token_sort_ratio t s :=
  fuzz_ratio_symm _ _

/-- The string whose tokens `token_sort_ratio` sorts when invoked from
`get_similarity_score`: the user-level cleaning followed by the scorer's own
full processing. -/
def normal_form (s : String) : String := full_process (clean_question s)

theorem get_similarity_score_symm (a b : String) :
    get_similarity_score a b = get_similarity_score b a := by
  unfold get_similarity_score
  by_cases h1 : clean_question a = "" <;> by_cases h2 : clean_question b = "" <;>
    simp [h1, h2, token_sort_ratio_symm]

/-- Claim C7: `get_similarity_score` is symmetric in its two arguments, and
if the normalised forms of both arguments are non-empty and carry the same
tokens in some order then the score is 100. -/
theorem claim_C7 (a b : String) :
    get_similarity_score a b = get_similarity_score b a ∧
      (normal_form a ≠ "" → normal_form b ≠ "" →
        (splitWs (normal_form a)).Perm (splitWs (normal_form b)) →
        get_similarity_score a b = 100) := by
  refine ⟨get_similarity_score_symm a b, ?_⟩
  intro h1 h2 hperm
  have hc1 : clean_question a ≠ "" := by
    intro hc
    exact h1 (by rw [normal_form, hc]; rfl)
  have hc2 : clean_question b ≠ "" := by
    intro hc
    exact h2 (by rw [normal_form, hc]; rfl)
  have hsorted :
      List.insertionSort (· ≤ ·) (splitWs (normal_form a)) =
        List.insertionSort (· ≤ ·) (splitWs (normal_form b)) :=
    List.eq_of_perm_of_sorted
      ((List.perm_insertionSort _ _).trans
        (hperm.trans (List.perm_insertionSort _ _).symm))
      (List.sorted_insertionSort _ _) (List.sorted_insertionSort _ _)
  have hpas : process_and_sort (clean_question a) = process_and_sort (clean_question b) := by
    unfold process_and_sort
    rw [show full_process (clean_question a) = normal_form a from rfl,
      show full_process (clean_question b) = normal_form b from rfl, hsorted]
  unfold get_similarity_score
  simp only [hc1, hc2]
  rw [if_neg (by simp [hc1, hc2])]
  unfold token_sort_ratio
  rw [hpas]
  unfold fuzz_ratio
  rw [if_pos rfl]

/-- Witness for claim C7 at a concrete pair of word-reordered queries. -/
theorem claim_C7_witness :
    get_similarity_score "reset password now" "now password reset" = 100 :=
  (claim_C7 "reset password now" "now password reset").2 (by decide) (by decide) (by decide)

/-! ### Claim C5: duplicate question text and priority tie-breaking -/

/-- The production default configuration (`bot/config.py`): threshold 60,
max results 5, cache 30 minutes, no remote URL. -/
def cfgC5 : Config :=
  { csv_file_path := "knowledge_base.csv", google_sheets_csv_url := none,
    max_results := 5, similarity_threshold := 60, cache_duration := 30 }

/-- A table with two entries of identical question text, the priority-7 one
first. -/
def kbC5 : KBFrame :=
  { hasQuestion := true
    rows :=
      [ { question := "q", answer := "a1", category := some "Cat",
          priority := some 7, lastUpdated := none },
        { question := "q", answer := "a2", category := some "Cat",
          priority := some 2, lastUpdated := none } ] }

/-- Counterexample to claim C5: in `kbC5` both entries share the question
text `"q"` and have priorities 7 and 2; against the query `"q"` both score
100, which exceeds the threshold 60 — yet `get_best_match` returns the
priority-7 entry (the first row), not the priority-2 entry, because every
candidate is resolved to the first `DataFrame` row with that question
text. -/
theorem claim_C5_counterexample :
    (find_matches cfgC5 "q" kbC5).map (fun m => (m.priority, m.score)) =
        [(7, 100), (7, 100)] ∧
      (get_best_match cfgC5 "q" kbC5).map (·.priority) = some 7 := by
  constructor <;> rfl

/-- Claim C5 as amended: every match returned by `bestMatch` (and hence the
best match in the duplicate-question scenario) carries the data of the
*first* table row whose question text equals the matched text and scores at
least the threshold; with two entries of identical question text the earlier
row wins regardless of priority, so the priority-2 entry is returned exactly
when it occurs before the priority-7 entry. -/
theorem claim_C5_amended (cfg : Config) (q : String) (kb : KBFrame) (m : MatchResult)
    (h : get_best_match cfg q kb = some m) :
    cfg.similarity_threshold ≤ m.score ∧
      ∃ row, kb.rows.find? (fun r => r.question == m.question) = some row ∧
        m = mkResult row m.score := by
  unfold get_best_match at h
  have hm : m ∈ find_matches cfg q kb := by
    cases hl : find_matches cfg q kb with
    | nil => rw [hl] at h; cases h
    | cons x xs =>
      rw [hl] at h
      simp only [List.head?_cons, Option.some.injEq] at h
      rw [← h]
      exact List.mem_cons_self x xs
  unfold find_matches at hm
  cases hb : find_matches_body cfg q kb with
  | error e => rw [hb] at hm; cases hm
  | ok rs =>
    rw [hb] at hm
    rcases find_matches_body_ok hb with hrs | ⟨results, hres, hrs⟩
    · subst hrs; cases hm
    · subst hrs
      have hm₁ : m ∈ List.insertionSort resLe results :=
        (List.take_sublist _ _).subset hm
      have hm₂ : m ∈ results := (List.perm_insertionSort resLe results).subset hm₁
      exact buildResults_ok_mem hres hm₂

/-- Witness for the amended claim C5: instantiating it on `kbC5` exhibits
the returned best match as the resolution of the first `"q"` row. -/
theorem claim_C5_witness :
    cfgC5.similarity_threshold ≤ 100 ∧
      ∃ row, kbC5.rows.find?
          (fun r => r.question == "q") = some row ∧
        ({ question := "q", answer := "a1", category := "Cat", priority := 7,
           score := 100, lastUpdated := none } : MatchResult) = mkResult row 100 :=
  claim_C5_amended cfgC5 "q" kbC5
    { question := "q", answer := "a1", category := "Cat", priority := 7,
      score := 100, lastUpdated := none } (by rfl)

/-! ### Claim C3: schema validation and row cleaning on load -/

def cfgC3 : Config :=
  { csv_file_path := "knowledge_base.csv", google_sheets_csv_url := none,
    max_results := 5, similarity_threshold := 60, cache_duration := 30 }

/-- A freshly constructed manager: all cache fields `None`. -/
def stC3 : CacheState := ⟨none, none, none⟩

/-- A header-only table (zero data rows) that lacks the `Answer` column. -/
def dfC3 : RawTable :=
  { hasCategory := true, hasQuestion := true, hasAnswer := false,
    hasPriority := false, hasLastUpdated := false, rows := [] }

def envC3 : GetEnv :=
  { remote := .error "", filePresent := true, fileMtime := 0,
    readResult := .ok dfC3, now := 0 }

/-- Counterexample to claim C3: `dfC3` is missing the required `Answer`
column, yet loading it does not raise a SchemaError — `get_knowledge_base`
hits the `df.empty` early return (the table has no data rows) before the
required-columns check and returns an empty table successfully. -/
theorem claim_C3_counterexample :
    dfC3.hasAnswer = false ∧
      get_knowledge_base cfgC3 stC3 envC3 = .ok (⟨false, []⟩, stC3, true) :=
  ⟨rfl, rfl⟩

/-- Claim C3 as amended: loading a *non-empty* local table missing any of
the columns Category, Question, Answer raises the SchemaError (a table with
no data rows is returned as an empty knowledge base before the schema
check); loading a non-empty table with all three columns drops exactly the
rows whose Question or Answer is missing or blank after trimming and
returns the normalised remainder, so every loaded entry has a non-empty
trimmed question and answer. -/
theorem claim_C3_amended (cfg : Config) (st : CacheState) (env : GetEnv) (df : RawTable)
    (hurl : cfg.google_sheets_csv_url = none)
    (hvalid : is_cache_valid cfg st env = false)
    (hfile : env.filePresent = true)
    (hread : env.readResult = .ok df)
    (hne : df.rows ≠ []) :
    (missing_required df = true →
      get_knowledge_base cfg st env = .error "Missing required columns") ∧
    (missing_required df = false →
      get_knowledge_base cfg st env =
          .ok (⟨true, clean_data df⟩,
            ⟨some (clean_data df), some env.now, some env.fileMtime⟩, true) ∧
        clean_data df =
          (df.rows.filter fun r =>
              r.question.isSome && r.answer.isSome &&
                (strip (r.question.getD "") != "") &&
                (strip (r.answer.getD "") != "")).map (clean_row df) ∧
        ∀ e ∈ clean_data df,
          strip e.question = e.question ∧ e.question ≠ "" ∧
            strip e.answer = e.answer ∧ e.answer ≠ "") := by
  have hempty : df.rows.isEmpty = false := by
    cases hrows : df.rows with
    | nil => exact absurd hrows hne
    | cons r rs => rfl
  constructor
  · intro hmiss
    simp [get_knowledge_base, hurl, get_local, hvalid, hfile, hread, hempty, hmiss]
  · intro hmiss
    refine ⟨?_, ?_, ?_⟩
    · simp [get_knowledge_base, hurl, get_local, hvalid, hfile, hread, hempty, hmiss]
    · unfold clean_data
      rw [List.filter_filter, List.filter_filter]
      refine congrArg (List.map (clean_row df)) (List.filter_congr ?_)
      intro r _
      ac_rfl
    · intro e he
      unfold clean_data at he
      obtain ⟨r, hr, rfl⟩ := List.mem_map.mp he
      obtain ⟨hr₂, hans⟩ := List.mem_filter.mp hr
      obtain ⟨_, hq⟩ := List.mem_filter.mp hr₂
      have hq' : strip (r.question.getD "") ≠ "" := by simpa using hq
      have hans' : strip (r.answer.getD "") ≠ "" := by simpa using hans
      exact ⟨strip_idem _, hq', strip_idem _, hans'⟩

/-- A non-empty raw table with all required columns: one well-formed row
(with surrounding whitespace to be trimmed) and one row whose Answer is
blank after trimming. -/
def dfC3w : RawTable :=
  { hasCategory := true, hasQuestion := true, hasAnswer := true,
    hasPriority := true, hasLastUpdated := false,
    rows :=
      [ { category := some "C", question := some " Q1 ", answer := some "A1",
          priority := some "2", lastUpdated := none },
        { category := some "C", question := some "Q2", answer := some "  ",
          priority := none, lastUpdated := none } ] }

def envC3w : GetEnv :=
  { remote := .error "", filePresent := true, fileMtime := 7,
    readResult := .ok dfC3w, now := 1 }

/-- Witness for the amended claim C3 on the concrete table `dfC3w`. -/
theorem claim_C3_witness :
    get_knowledge_base cfgC3 stC3 envC3w =
        .ok (⟨true, clean_data dfC3w⟩,
          ⟨some (clean_data dfC3w), some 1, some 7⟩, true) ∧
      clean_data dfC3w =
        (dfC3w.rows.filter fun r =>
            r.question.isSome && r.answer.isSome &&
              (strip (r.question.getD "") != "") &&
              (strip (r.answer.getD "") != "")).map (clean_row dfC3w) ∧
      ∀ e ∈ clean_data dfC3w,
        strip e.question = e.question ∧ e.question ≠ "" ∧
          strip e.answer = e.answer ∧ e.answer ≠ "" :=
  (claim_C3_amended cfgC3 stC3 envC3w dfC3w rfl rfl rfl rfl (by decide)).2 rfl

/-! ### Claim C4: local-path cache validity -/

/-- Reachable shapes of the cache fields when only the local path is
configured: either never populated (all `None`, as at construction) or
populated, where `get_knowledge_base` set all three fields together. -/
def cache_coherent (st : CacheState) : Prop :=
  (st.data_cache = none ∧ st.cache_time = none ∧ st.last_modified = none) ∨
  (∃ d ct lm, st.data_cache = some d ∧ st.cache_time = some ct ∧
    st.last_modified = some lm)

/-- On coherent populated state the local cache-validity check is exactly
"file mtime not newer than recorded, and still inside the cache window". -/
theorem is_cache_valid_populated (cfg : Config) {st : CacheState} {env : GetEnv}
    {d : List KBRow} {ct lm : Int}
    (hd : st.data_cache = some d) (hct : st.cache_time = some ct)
    (hlm : st.last_modified = some lm) (hfile : env.filePresent = true) :
    is_cache_valid cfg st env =
      (decide (env.fileMtime ≤ lm) && decide (env.now < ct + cfg.cache_duration)) := by
  unfold is_cache_valid
  rw [hd, hct, hlm, hfile]
  by_cases h : lm < env.fileMtime
  · simp [h, not_le.mpr h]
  · simp [h, not_lt.mp h]

/-- If the local path answered without reading the file, either the cache
was valid or the file was absent. -/
theorem get_local_no_read {cfg : Config} {st : CacheState} {env : GetEnv}
    {fr : KBFrame} {st' : CacheState}
    (h : get_local cfg st env = .ok (fr, st', false)) :
    is_cache_valid cfg st env = true ∨ env.filePresent = false := by
  unfold get_local at h
  split at h
  · rename_i hv; exact Or.inl hv
  · split at h
    · rename_i hp; exact Or.inr (by simpa using hp)
    · split at h
      · cases h
      · split at h
        · simp at h
        · split at h
          · cases h
          · simp at h

/-- Claim C4: with no remote source and the local file present, `get()`
answers from the cache without re-reading the source iff (a) a cached table
exists, (b) the file's mtime is not newer than the mtime recorded when the
cache was populated, and (c) the elapsed time is under the cache duration;
in particular, once the file's mtime advances past the recorded one, no
call can answer without re-reading the file, even inside the time window. -/
theorem claim_C4 (cfg : Config) (st : CacheState) (env : GetEnv)
    (hurl : cfg.google_sheets_csv_url = none)
    (hwf : cache_coherent st)
    (hfile : env.filePresent = true) :
    ((∃ d, st.data_cache = some d ∧
        get_knowledge_base cfg st env = .ok (⟨true, d⟩, st, false)) ↔
      (∃ d ct lm, st.data_cache = some d ∧ st.cache_time = some ct ∧
        st.last_modified = some lm ∧ env.fileMtime ≤ lm ∧
        env.now < ct + cfg.cache_duration)) ∧
    (∀ lm, st.last_modified = some lm → lm < env.fileMtime →
      ∀ fr st', get_knowledge_base cfg st env ≠ .ok (fr, st', false)) := by
  have hlocal : get_knowledge_base cfg st env = get_local cfg st env := by
    unfold get_knowledge_base
    rw [hurl]
  have hnoread : is_cache_valid cfg st env = false →
      ∀ fr st', get_knowledge_base cfg st env ≠ .ok (fr, st', false) := by
    intro hv fr st' hget
    rw [hlocal] at hget
    rcases get_local_no_read hget with h | h
    · rw [hv] at h; cases h
    · rw [hfile] at h; cases h
  constructor
  · rcases hwf with ⟨hd, _, _⟩ | ⟨d, ct, lm, hd, hct, hlm⟩
    · constructor
      · rintro ⟨d, hd', _⟩
        rw [hd] at hd'; cases hd'
      · rintro ⟨d, ct, lm, hd', _⟩
        rw [hd] at hd'; cases hd'
    · have hval := is_cache_valid_populated cfg hd hct hlm hfile
      constructor
      · rintro ⟨d', hd', hget⟩
        cases hv : is_cache_valid cfg st env with
        | true =>
          rw [hval] at hv
          simp only [Bool.and_eq_true, decide_eq_true_eq] at hv
          exact ⟨d, ct, lm, hd, hct, hlm, hv.1, hv.2⟩
        | false => exact absurd hget (hnoread hv _ _)
      · rintro ⟨d', ct', lm', hd', hct', hlm', hmt, hexp⟩
        rw [hd, Option.some.injEq] at hd'
        rw [hct, Option.some.injEq] at hct'
        rw [hlm, Option.some.injEq] at hlm'
        subst hd'; subst hct'; subst hlm'
        have hv : is_cache_valid cfg st env = true := by
          rw [hval]
          simp [hmt, hexp]
        refine ⟨d, hd, ?_⟩
        rw [hlocal]
        unfold get_local
        rw [hv]
        simp [hd]
  · intro lm₀ hlm₀ hlt fr st'
    apply hnoread
    rcases hwf with ⟨_, _, hlm⟩ | ⟨d, ct, lm, hd, hct, hlm⟩
    · rw [hlm] at hlm₀; cases hlm₀
    · rw [hlm, Option.some.injEq] at hlm₀
      subst hlm₀
      rw [is_cache_valid_populated cfg hd hct hlm hfile]
      simp [not_le.mpr hlt]

/-- Concrete populated cache state for the C4 witness. -/
def stC4 : CacheState := ⟨some [], some 0, some 5⟩

def cfgC4 : Config :=
  { csv_file_path := "knowledge_base.csv", google_sheets_csv_url := none,
    max_results := 5, similarity_threshold := 60, cache_duration := 30 }

/-- Environment for the C4 witness: file untouched (mtime 3 ≤ recorded 5)
and inside the 30-minute window (now 10 < 0 + 30). -/
def envC4 : GetEnv :=
  { remote := .error "", filePresent := true, fileMtime := 3,
    readResult := .error "io error", now := 10 }

/-- Witness for claim C4: on the concrete populated state the cache is used
without re-reading the source. -/
theorem claim_C4_witness :
    ∃ d, stC4.data_cache = some d ∧
      get_knowledge_base cfgC4 stC4 envC4 = .ok (⟨true, d⟩, stC4, false) :=
  (claim_C4 cfgC4 stC4 envC4 rfl (Or.inr ⟨[], 0, 5, rfl, rfl, rfl⟩) rfl).1.mpr
    ⟨[], 0, 5, rfl, rfl, rfl, by decide, by decide⟩

/-! ### Claim C6: missing or unreadable local file -/

def cfgC6 : Config :=
  { csv_file_path := "knowledge_base.csv", google_sheets_csv_url := none,
    max_results := 5, similarity_threshold := 60, cache_duration := 30 }

def stC6 : CacheState := ⟨none, none, none⟩

/-- Environment where the local file exists but reading it fails (e.g. a
permission or parse error inside `pd.read_csv`). -/
def envC6 : GetEnv :=
  { remote := .error "", filePresent := true, fileMtime := 0,
    readResult := .error "unreadable", now := 0 }

/-- Counterexample to claim C6: with no remote source and an existing but
unreadable local file, `get()` does not return an empty `KnowledgeBase` —
the read error is re-raised by the `except` clause of
`get_knowledge_base` and propagates to the caller. -/
theorem claim_C6_counterexample :
    get_knowledge_base cfgC6 stC6 envC6 = .error "unreadable" := rfl

/-- Claim C6 as amended: with no remote source, if the local file is
*absent* then `get()` returns an empty `KnowledgeBase` and raises nothing
(whatever the cache state); but if the file exists and reading it fails,
the error propagates to the caller instead of yielding an empty table. -/
theorem claim_C6_amended (cfg : Config) (st : CacheState) (env : GetEnv)
    (hurl : cfg.google_sheets_csv_url = none) :
    (env.filePresent = false →
      get_knowledge_base cfg st env = .ok (⟨false, []⟩, st, false)) ∧
    (∀ e, env.filePresent = true → is_cache_valid cfg st env = false →
      env.readResult = .error e → get_knowledge_base cfg st env = .error e) := by
  have hlocal : get_knowledge_base cfg st env = get_local cfg st env := by
    unfold get_knowledge_base
    rw [hurl]
  constructor
  · intro habs
    have hv : is_cache_valid cfg st env = false := by
      unfold is_cache_valid
      cases hdc : st.data_cache with
      | none => rfl
      | some d =>
        cases hctc : st.cache_time with
        | none => rfl
        | some ct => rw [habs]; rfl
    rw [hlocal]
    unfold get_local
    rw [hv, habs]
    rfl
  · intro e hfile hv hread
    rw [hlocal]
    unfold get_local
    rw [hv, hfile, hread]
    rfl

/-- Environment with the local file absent, for the C6 witness. -/
def envC6absent : GetEnv :=
  { remote := .error "", filePresent := false, fileMtime := 0,
    readResult := .error "file not found", now := 0 }

/-- Witness for the amended claim C6: an absent file yields an empty
knowledge base without an error. -/
theorem claim_C6_witness :
    get_knowledge_base cfgC6 stC6 envC6absent = .ok (⟨false, []⟩, stC6, false) :=
  (claim_C6_amended cfgC6 stC6 envC6absent rfl).1 rfl

/-! ### Claim C9: the unanswered-question log -/

/-- Claim C9: `log_unanswered_question` appends a record only when the
query has at least 3 whitespace-separated tokens (for shorter queries the
log is unchanged), and a failing write is caught: the log is left unchanged
and nothing propagates. -/
theorem claim_C9 (q timestamp user_id : String) (username : Option String)
    (log : List String) (writeFails : Bool) :
    ((splitWs q).length < 3 →
      log_unanswered_question q timestamp user_id username log writeFails = log) ∧
    (3 ≤ (splitWs q).length → writeFails = false →
      log_unanswered_question q timestamp user_id username log writeFails =
        log ++ [log_record timestamp user_id (username_or_unknown username) q]) ∧
    (writeFails = true →
      log_unanswered_question q timestamp user_id username log writeFails = log) := by
  refine ⟨?_, ?_, ?_⟩
  · intro hshort
    unfold log_unanswered_question log_unanswered_body
    rw [if_pos hshort]
  · intro hlong hok
    unfold log_unanswered_question log_unanswered_body
    rw [if_neg (by omega), hok]
    rfl
  · intro hfail
    unfold log_unanswered_question log_unanswered_body
    by_cases hshort : (splitWs q).length < 3
    · rw [if_pos hshort]
    · rw [if_neg hshort, hfail]
      rfl

/-- Witness for claim C9: a two-word query writes nothing, a three-word
query appends exactly one record, and a failing write leaves the log
unchanged. -/
theorem claim_C9_witness :
    log_unanswered_question "too short" "t" "7" none ["old"] false = ["old"] ∧
      log_unanswered_question "how are you" "t" "7" (some "bob") ["old"] false =
        ["old", "\"t\",\"7\",\"bob\",\"how are you\"\n"] ∧
      log_unanswered_question "how are you" "t" "7" (some "bob") ["old"] true = ["old"] :=
  ⟨(claim_C9 "too short" "t" "7" none ["old"] false).1 (by decide),
    (claim_C9 "how are you" "t" "7" (some "bob") ["old"] false).2.1 (by decide) rfl,
    (claim_C9 "how are you" "t" "7" (some "bob") ["old"] true).2.2 rfl⟩

/-! ### Claim C10: the remote decode fallback chain -/

/-- Claim C10: for every byte string, the decode fallback chain succeeds —
whatever the partial `utf-8`/`utf-8-sig`/`cp1251` codecs do, the final
`latin1` attempt decodes every byte sequence — so the lossy
`errors='replace'` branch is unreachable: the decoded text does not depend
on the lossy decoder. -/
theorem claim_C10 (dUtf8 dUtf8sig dCp1251 : List Nat → Option String)
    (lossy lossy' : List Nat → String) (bs : List Nat)
    (hb : ∀ b ∈ bs, b < 256) :
    (∃ t, decode_chain dUtf8 dUtf8sig dCp1251 bs = some t) ∧
      remote_decode dUtf8 dUtf8sig dCp1251 lossy bs =
        remote_decode dUtf8 dUtf8sig dCp1251 lossy' bs := by
  have hlatin : decode_latin1 bs = some (String.mk (bs.map Char.ofNat)) := by
    unfold decode_latin1
    rw [if_pos]
    rw [List.all_eq_true]
    intro b hbmem
    exact decide_eq_true (hb b hbmem)
  have hchain : ∃ t, decode_chain dUtf8 dUtf8sig dCp1251 bs = some t := by
    unfold decode_chain
    cases dUtf8 bs with
    | some t => exact ⟨t, rfl⟩
    | none =>
      cases dUtf8sig bs with
      | some t => exact ⟨t, rfl⟩
      | none =>
        cases dCp1251 bs with
        | some t => exact ⟨t, rfl⟩
        | none => exact ⟨_, hlatin⟩
  refine ⟨hchain, ?_⟩
  obtain ⟨t, ht⟩ := hchain
  unfold remote_decode
  rw [ht]

/-- Witness for claim C10 on the concrete bytes `[255, 152]` (a sequence on
which real `utf-8` and `cp1251` decoding fail), with the first three codecs
instantiated as always-failing: the chain still succeeds and the result is
independent of the lossy decoder. -/
theorem claim_C10_witness :
    (∃ t, decode_chain (fun _ => none) (fun _ => none) (fun _ => none)
        [255, 152] = some t) ∧
      remote_decode (fun _ => none) (fun _ => none) (fun _ => none)
          (fun _ => "lossyA") [255, 152] =
        remote_decode (fun _ => none) (fun _ => none) (fun _ => none)
          (fun _ => "lossyB") [255, 152] :=
  claim_C10 (fun _ => none) (fun _ => none) (fun _ => none)
    (fun _ => "lossyA") (fun _ => "lossyB") [255, 152] (by decide)

end Voltic
